import Mathlib

/-!
Shallow embedding of the stock-comparison pipeline in `src/Finance-App.py`:
the snapshot fetch (`get_stock_data`), the news fetch (`get_stock_news`),
the chart builder (`create_price_chart` over the attached `history`
closure), the narrative prompt construction (`get_ai_analysis`,
`generate_chat_response`), the fundamentals-table rendering, and the two
session-state mutating handlers (the Analyze Stocks button and the chat
input).  Upstream HTTP payloads are modelled as explicit inputs; the
generative collaborator is an explicit function argument.  Machine floats
are modelled as exact rationals; digit-level details of Python float repr
are abstracted inside the small formatting helpers, which keep the two
facts every claim depends on: which format specs apply to which fields,
and that a numeric format spec applied to a str operand raises ValueError.
-/

namespace FinanceApp

/-- Value stored in the consolidated `info` mapping built by
`get_stock_data`: the code stores either a number or a string
(company name, sector, or the missing-value sentinel literal). -/
inductive FieldVal where
  | num (q : Rat)
  | str (s : String)
deriving DecidableEq

/-- The literal the code substitutes for a missing field. -/
def sentinel : FieldVal := .str "N/A"

/-- Python truthiness of a stored value: zero and the empty string are
falsy, everything else is truthy. -/
def FieldVal.truthy : FieldVal → Bool
  | .num q => q != 0
  | .str s => s != ""

/-- The fields of the `company_profile2` payload that the code reads; the
upstream returns `marketCapitalization` as a number (of millions) when it
is present. -/
structure ProfileFields where
  name : Option String
  marketCapitalization : Option Rat
  finnhubIndustry : Option String
deriving DecidableEq

/-- The fields of the `quote` payload that the code reads: current, high
and low prices. -/
structure QuoteFields where
  c : Option Rat
  h : Option Rat
  l : Option Rat
deriving DecidableEq

/-- The entries of the `metric` sub-object of the
`company_basic_financials` payload that the code reads. -/
structure MetricFields where
  peBasicExclExtraTTM : Option Rat
  peNormalizedAnnual : Option Rat
  dividendYieldIndicatedAnnual : Option Rat
  beta : Option Rat
deriving DecidableEq

/-- The `company_basic_financials` payload: an object whose `metric` key
may be absent (`financials.get` with an empty-dict default). -/
structure FinancialsFields where
  metric : Option MetricFields
deriving DecidableEq

/-- The `stock_candles` payload: a status flag and parallel arrays of
opens, highs, lows, closes, volumes and timestamps. -/
structure CandlesPayload where
  s : String
  o : List Rat
  h : List Rat
  l : List Rat
  c : List Rat
  v : List Rat
  t : List Int
deriving DecidableEq

/-- Outcome of one upstream HTTP call: either the call returned a payload
(where `payload none` models an empty or null, i.e. Python-falsy, body)
or the call raised a transport error, which propagates to the enclosing
try block. -/
inductive UpstreamResult (α : Type) where
  | payload (a : Option α)
  | failed
deriving DecidableEq

/-- The consolidated `info` mapping of one snapshot.  Every key the code
writes is always present; a missing upstream value shows up as the
sentinel (or as the number 0 for `dividendYield`), never as an absent
key. -/
structure StockInfo where
  symbol : FieldVal
  shortName : FieldVal
  marketCap : FieldVal
  currentPrice : FieldVal
  trailingPE : FieldVal
  forwardPE : FieldVal
  fiftyTwoWeekHigh : FieldVal
  fiftyTwoWeekLow : FieldVal
  dividendYield : FieldVal
  sector : FieldVal
  beta : FieldVal
deriving DecidableEq

/-- The consolidated object `get_stock_data` returns: the `info` mapping
plus the raw candle payload captured by the attached `history` closure. -/
structure StockData where
  info : StockInfo
  candles : Option CandlesPayload
deriving DecidableEq

/-- `dict.get(key, the sentinel)` for an optional upstream string. -/
def strOr (v : Option String) : FieldVal :=
  match v with
  | some s => .str s
  | none => sentinel

/-- `dict.get(key, the sentinel)` for an optional upstream number. -/
def numOr (v : Option Rat) : FieldVal :=
  match v with
  | some q => .num q
  | none => sentinel

/-- The empty-dict default of `financials.get` applied to `metric`. -/
def emptyMetric : MetricFields := ⟨none, none, none, none⟩

/-- The `marketCap` entry of the info mapping: the upstream millions
value times one million when it is present and truthy, the sentinel
otherwise. -/
def marketCapVal (o : Option Rat) : FieldVal :=
  match o with
  | some mc => if mc ≠ 0 then .num (mc * 1000000) else sentinel
  | none => sentinel

/-- The `dividendYield` entry of the info mapping: the upstream
percentage divided by 100 when it is present and truthy, the number 0
otherwise (the default of the inner `get` here is 0, not the
sentinel). -/
def dividendYieldVal (o : Option Rat) : FieldVal :=
  match o with
  | some d => if d ≠ 0 then .num (d / 100) else .num 0
  | none => .num 0

/-- `get_stock_data(symbol)` given the outcomes of the four upstream
calls, issued in source order: profile, quote, basic financials, candles.
An empty profile, quote or financials payload raises ValueError; a raised
exception anywhere in the body is caught and the function returns None. -/
def get_stock_data (symbol : String)
    (profile : UpstreamResult ProfileFields)
    (quote : UpstreamResult QuoteFields)
    (financials : UpstreamResult FinancialsFields)
    (candles : UpstreamResult CandlesPayload) : Option StockData :=
  match profile with
  | .failed => none
  | .payload none => none
  | .payload (some p) =>
    match quote with
    | .failed => none
    | .payload none => none
    | .payload (some q) =>
      match financials with
      | .failed => none
      | .payload none => none
      | .payload (some f) =>
        match candles with
        | .failed => none
        | .payload cd =>
          let metric := f.metric.getD emptyMetric
          some
            { info :=
                { symbol := .str symbol
                  shortName := strOr p.name
                  marketCap := marketCapVal p.marketCapitalization
                  currentPrice := numOr q.c
                  trailingPE := numOr metric.peBasicExclExtraTTM
                  forwardPE := numOr metric.peNormalizedAnnual
                  fiftyTwoWeekHigh := numOr q.h
                  fiftyTwoWeekLow := numOr q.l
                  dividendYield := dividendYieldVal metric.dividendYieldIndicatedAnnual
                  sector := strOr p.finnhubIndustry
                  beta := numOr metric.beta }
              candles := cd }

/-- One item of the `company_news` payload, with the fields the news tab
reads. -/
structure NewsItem where
  headline : String
  source : String
  datetime : Int
  summary : String
deriving DecidableEq

/-- The seven-day request window the code passes to `company_news`
(calendar dates abstracted to second timestamps): from seven days before
now, to now. -/
def newsWindow (now : Int) : Int × Int := (now - 7 * 86400, now)

/-- `get_stock_news(symbol)` given the outcome of the upstream call: the
first five items of the returned array; any exception (including slicing
a null body) is caught and yields the empty list. -/
def get_stock_news : UpstreamResult (List NewsItem) → List NewsItem
  | .payload (some news) => news.take 5
  | .payload none => []
  | .failed => []

/-- One row of the DataFrame the `history` closure builds from the
parallel candle arrays. -/
structure Bar where
  t : Int
  o : Rat
  h : Rat
  l : Rat
  c : Rat
  v : Rat
deriving DecidableEq

/-- Zip the parallel candle arrays into DataFrame rows.  The upstream
returns arrays of equal length; on unequal lengths this truncates to the
shortest where pandas would raise inside the callers try block. -/
def zipBars : List Int → List Rat → List Rat → List Rat → List Rat →
    List Rat → List Bar
  | tt :: ts, oo :: os, hh :: hs, ll :: ls, cc :: cs, vv :: vs =>
      ⟨tt, oo, hh, ll, cc, vv⟩ :: zipBars ts os hs ls cs vs
  | _, _, _, _, _, _ => []

/-- The `history()` closure attached to the consolidated object: the
DataFrame of candle rows when the candle payload is truthy with status
ok, the empty DataFrame otherwise. -/
def history (sd : StockData) : List Bar :=
  match sd.candles with
  | some cd => if cd.s = "ok" then zipBars cd.t cd.o cd.h cd.l cd.c cd.v else []
  | none => []

/-- One candlestick point of the chart: x is the timestamp index, then
open, high, low, close (volume is not plotted). -/
structure ChartPoint where
  x : Int
  o : Rat
  h : Rat
  l : Rat
  c : Rat
deriving DecidableEq

/-- The candlestick point drawn for one history row. -/
def barPoint (b : Bar) : ChartPoint := ⟨b.t, b.o, b.h, b.l, b.c⟩

/-- `create_price_chart(stock_data, symbol)`: None (plus a no-data
warning) when the history frame is empty, otherwise a figure whose single
candlestick trace has one point per history row, in row order. -/
def create_price_chart (sd : StockData) : Option (List ChartPoint) :=
  let hist := history sd
  if hist = [] then none else some (hist.map barPoint)

/-- Insert a thousands separator after every third digit of a reversed
digit list; the counter holds how many digits remain in the current
group. -/
def commaGroupAux : Nat → List Char → List Char
  | _, [] => []
  | 0, d :: ds => ',' :: d :: commaGroupAux 2 ds
  | n + 1, d :: ds => d :: commaGroupAux n ds

/-- A natural number with thousands separators. -/
def commaFormatNat (n : Nat) : String :=
  String.mk ((commaGroupAux 3 (toString n).data.reverse).reverse)

/-- Two decimal places (digit-level float behaviour abstracted to
rounding the exact rational half-up). -/
def fmtF2 (q : Rat) : String :=
  let sign := if q < 0 then "-" else ""
  let n : Nat := (⌊|q| * 100 + 1 / 2⌋).toNat
  sign ++ toString (n / 100) ++ "." ++
    (if n % 100 < 10 then "0" else "") ++ toString (n % 100)

/-- Thousands separators with zero decimal places. -/
def fmtComma0 (q : Rat) : String :=
  let sign := if q < 0 then "-" else ""
  sign ++ commaFormatNat (⌊|q| + 1 / 2⌋).toNat

/-- The bare thousands-separator spec applied to a float: integer part
grouped with separators, then the fractional part (float repr digits
abstracted; integral values end in .0 as in Python). -/
def fmtCommaFloat (q : Rat) : String :=
  let sign := if q < 0 then "-" else ""
  let ip : Nat := (⌊|q|⌋).toNat
  let fr : Rat := |q| - (ip : Rat)
  sign ++ commaFormatNat ip ++ "." ++
    (if fr = 0 then "0" else toString (⌊fr * 100⌋).toNat)

/-- Python `str()` of a stored value (float repr of non-integral
rationals abstracted to a fraction form). -/
def pyStr : FieldVal → String
  | .num q => if q.den = 1 then toString q.num else
      toString q.num ++ "/" ++ toString q.den
  | .str s => s

/-- The thousands-separator format spec applied to a stored value, as in
the analysis and chat prompts: numbers format; a str operand makes
`format` raise ValueError. -/
def pyFormatComma : FieldVal → Except String String
  | .num q => .ok (fmtCommaFloat q)
  | .str _ => .error "Cannot specify , with s"

/-- The two-decimal fixed-point format spec applied to a stored value: a
str operand makes `format` raise ValueError. -/
def pyFormatF2 : FieldVal → Except String String
  | .num q => .ok (fmtF2 q)
  | .str _ => .error "Unknown format code f for object of type str"

/-- Python `value * 100` as applied to the dividend yield entry of the
analysis prompt: numbers multiply; a str operand is sequence
repetition. -/
def pyMul100 : FieldVal → FieldVal
  | .num q => .num (q * 100)
  | .str s => .str (String.join (List.replicate 100 s))

/-- The per-stock block of the analysis prompt, interpolated left to
right as in the f-string: plain placeholders call `str()`, the market cap
placeholder carries the thousands-separator spec, and the dividend yield
placeholder carries the two-decimal spec applied to `value * 100`.  The
first ValueError aborts the interpolation. -/
def stockBlock (sym : String) (info : StockInfo) : Except String String :=
  match pyFormatComma info.marketCap with
  | .error e => .error e
  | .ok mc =>
    match pyFormatF2 (pyMul100 info.dividendYield) with
    | .error e => .error e
    | .ok dy =>
      .ok (sym ++ ":\n- Sector: " ++ pyStr info.sector
        ++ "\n- Market Cap: $" ++ mc
        ++ "\n- P/E: " ++ pyStr info.trailingPE
        ++ " | Forward P/E: " ++ pyStr info.forwardPE
        ++ "\n- Price: $" ++ pyStr info.currentPrice
        ++ " (52W: " ++ pyStr info.fiftyTwoWeekLow
        ++ "-" ++ pyStr info.fiftyTwoWeekHigh ++ ")"
        ++ "\n- Beta: " ++ pyStr info.beta
        ++ " | Dividend Yield: " ++ dy ++ "%\n")

/-- The comparison prompt of `get_ai_analysis`: the first stock block,
then the second, inside the fixed template. -/
def analysisPrompt (s1 s2 : StockData) (sym1 sym2 : String) :
    Except String String :=
  match stockBlock sym1 s1.info with
  | .error e => .error e
  | .ok b1 =>
    match stockBlock sym2 s2.info with
    | .error e => .error e
    | .ok b2 =>
      .ok ("As a professional financial analyst, analyze these two stocks:\n\n"
        ++ b1 ++ "\n" ++ b2
        ++ "\nProvide detailed analysis covering:\n"
        ++ "1. Valuation comparison\n2. Growth potential\n3. Risk assessment\n"
        ++ "4. Sector outlook\n5. Investment recommendation\n\n"
        ++ "Use professional tone with clear section headers.")

/-- `get_ai_analysis`: build the prompt, call the generative collaborator,
return its text (or the no-analysis fallback on a falsy response); any
exception is caught and returned as an analysis-error string. -/
def get_ai_analysis (s1 s2 : StockData) (sym1 sym2 : String)
    (gen : String → Except String (Option String)) : String :=
  match analysisPrompt s1 s2 sym1 sym2 with
  | .error e => "Analysis error: " ++ e
  | .ok prompt =>
    match gen prompt with
    | .error e => "Analysis error: " ++ e
    | .ok none => "No analysis available"
    | .ok (some t) => t

/-- The format spec attached to one row of the fundamentals metrics
list. -/
inductive Fmt where
  | price2
  | currency0
  | plain2
  | percent2
deriving DecidableEq

/-- Apply a metrics-table format spec to a number: a dollar sign with two
decimals, a dollar sign with separators and zero decimals, bare two
decimals, or two decimals as a percentage. -/
def applyFmt : Fmt → Rat → String
  | .price2, q => "$" ++ fmtF2 q
  | .currency0, q => "$" ++ fmtComma0 q
  | .plain2, q => fmtF2 q
  | .percent2, q => fmtF2 (q * 100) ++ "%"

/-- One metric cell of the fundamentals tab:
`metric[2].format(val) if val and val != the sentinel else the sentinel`.
A truthy non-sentinel str reaching a numeric spec would raise. -/
def renderMetricVal (v : FieldVal) (f : Fmt) : Except String String :=
  if v.truthy = true ∧ v ≠ sentinel then
    match v with
    | .num q => .ok (applyFmt f q)
    | .str _ => .error "Unknown format code f for object of type str"
  else .ok "N/A"

/-- The metrics list of the fundamentals tab, in source order, with each
rows format spec. -/
def infoMetrics (info : StockInfo) : List (FieldVal × Fmt) :=
  [ (info.currentPrice, .price2)
  , (info.marketCap, .currency0)
  , (info.trailingPE, .plain2)
  , (info.forwardPE, .plain2)
  , (info.beta, .plain2)
  , (info.dividendYield, .percent2)
  , (info.fiftyTwoWeekHigh, .price2)
  , (info.fiftyTwoWeekLow, .price2) ]

/-- Render a list of metric cells in order; the first exception aborts
the loop (and would crash the script run). -/
def renderPairs : List (FieldVal × Fmt) → Except String (List String)
  | [] => .ok []
  | pr :: rest =>
    match renderMetricVal pr.1 pr.2 with
    | .error e => .error e
    | .ok s =>
      match renderPairs rest with
      | .error e => .error e
      | .ok ss => .ok (s :: ss)

/-- The rendered column of one stock in the fundamentals tab. -/
def renderFundamentals (info : StockInfo) : Except String (List String) :=
  renderPairs (infoMetrics info)

/-- One turn of the chat log (`role` is user or ai). -/
structure ChatMsg where
  role : String
  content : String
deriving DecidableEq

/-- The `st.session_state` fields of the app. -/
structure SessionState where
  chat_history : List ChatMsg
  stock1_data : Option StockData
  stock2_data : Option StockData
  stock1_symbol : String
  stock2_symbol : String
deriving DecidableEq

/-- The context block of `generate_chat_response`, built from the two
stored snapshots and symbols only.  Accessing `.info` of a missing
snapshot raises AttributeError; the market-cap placeholders carry the
thousands-separator spec and raise on a str operand. -/
def chatContext (st : SessionState) : Except String String :=
  match st.stock1_data, st.stock2_data with
  | some s1, some s2 =>
    match pyFormatComma s1.info.marketCap with
    | .error e => .error e
    | .ok mc1 =>
      match pyFormatComma s2.info.marketCap with
      | .error e => .error e
      | .ok mc2 =>
        .ok ("Analyzing " ++ st.stock1_symbol ++ " ("
          ++ pyStr s1.info.shortName ++ ")\nvs " ++ st.stock2_symbol
          ++ " (" ++ pyStr s2.info.shortName ++ ").\n\nKey Metrics:\n- "
          ++ st.stock1_symbol ++ ":\n  P/E " ++ pyStr s1.info.trailingPE
          ++ ",\n  Market Cap $" ++ mc1
          ++ ",\n  Beta " ++ pyStr s1.info.beta ++ "\n\n- "
          ++ st.stock2_symbol ++ ":\n  P/E " ++ pyStr s2.info.trailingPE
          ++ ",\n  Market Cap $" ++ mc2
          ++ ",\n  Beta " ++ pyStr s2.info.beta)
  | _, _ => .error "NoneType object has no attribute info"

/-- The full chat prompt: the snapshot context block, the free-form
question, and the fixed guidelines.  The conversation log is not read
anywhere in its construction. -/
def chatFullPrompt (st : SessionState) (question : String) :
    Except String String :=
  match chatContext st with
  | .error e => .error e
  | .ok ctx =>
    .ok (ctx ++ "\n\nAs a financial expert, answer this question:\n"
      ++ question
      ++ "\n\nGuidelines:\n- Be specific to these companies\n"
      ++ "- Compare key metrics\n- Highlight risks and opportunities\n"
      ++ "- Maintain professional tone\n- Use bullet points when appropriate")

/-- `generate_chat_response(prompt)`: build the full prompt, call the
generative collaborator, return its text (or the fallback on a falsy
response); any exception is caught and returned as a chat-error
string. -/
def generate_chat_response (st : SessionState) (question : String)
    (gen : String → Except String (Option String)) : String :=
  match chatFullPrompt st question with
  | .error e => "Chat error: " ++ e
  | .ok fp =>
    match gen fp with
    | .error e => "Chat error: " ++ e
    | .ok none => "Couldn\x27t generate response"
    | .ok (some t) => t

/-- The four upstream payload outcomes for one symbol fetch. -/
structure Upstream where
  profile : UpstreamResult ProfileFields
  quote : UpstreamResult QuoteFields
  financials : UpstreamResult FinancialsFields
  candles : UpstreamResult CandlesPayload
deriving DecidableEq

/-- The full snapshot fetch for one symbol (the specification calls this
fetchSnapshot). -/
def fetchSnapshot (symbol : String) (u : Upstream) : Option StockData :=
  get_stock_data symbol u.profile u.quote u.financials u.candles

/-- The Analyze Stocks button handler: when both symbol inputs are
truthy, store the two fetch results (whatever they are, including None on
failure), store the two symbols, and clear the chat history; otherwise
only warn and leave the state unchanged. -/
def analyzeClick (st : SessionState) (sym1 sym2 : String)
    (u1 u2 : Upstream) : SessionState :=
  if sym1 ≠ "" ∧ sym2 ≠ "" then
    { chat_history := []
      stock1_data := fetchSnapshot sym1 u1
      stock2_data := fetchSnapshot sym2 u2
      stock1_symbol := sym1
      stock2_symbol := sym2 }
  else st

/-- The chat input handler: on a truthy prompt, append the user turn,
generate the response against the updated session state, and append the
assistant turn. -/
def chatSubmit (st : SessionState) (prompt : String)
    (gen : String → Except String (Option String)) : SessionState :=
  if prompt ≠ "" then
    let st1 := { st with chat_history :=
        st.chat_history ++ [(⟨"user", prompt⟩ : ChatMsg)] }
    { st1 with chat_history :=
        st1.chat_history
          ++ [(⟨"ai", generate_chat_response st1 prompt gen⟩ : ChatMsg)] }
  else st

/-- A stored value is a number or the sentinel (the shape of every
numeric field of a fetched snapshot). -/
def numOrSentinel (v : FieldVal) : Prop :=
  (∃ q, v = FieldVal.num q) ∨ v = sentinel

/-- A full company profile payload, for concrete instantiations. -/
def fullProf : ProfileFields := ⟨some "NVIDIA", some 3000000, some "Technology"⟩

/-- A full quote payload, for concrete instantiations. -/
def fullQuote : QuoteFields := ⟨some 180, some 200, some 90⟩

/-- A full metric sub-object, for concrete instantiations. -/
def fullMetric : MetricFields := ⟨some 50, some 40, some 4, some 2⟩

/-- A full financials payload, for concrete instantiations. -/
def fullFin : FinancialsFields := ⟨some fullMetric⟩

/-- The snapshot `get_stock_data` builds for NVDA from the full payloads
above (no candle payload). -/
def sdFull : StockData :=
  { info :=
      { symbol := .str "NVDA"
        shortName := .str "NVIDIA"
        marketCap := .num (3000000 * 1000000)
        currentPrice := .num 180
        trailingPE := .num 50
        forwardPE := .num 40
        fiftyTwoWeekHigh := .num 200
        fiftyTwoWeekLow := .num 90
        dividendYield := .num (4 / 100)
        sector := .str "Technology"
        beta := .num 2 }
    candles := none }

/-- An upstream where all four calls return full payloads. -/
def goodUpstream : Upstream :=
  ⟨.payload (some fullProf), .payload (some fullQuote),
   .payload (some fullFin), .payload none⟩

/-- The upstream of the ZZZZ9 scenario: the profile resolves but the
quote payload is empty. -/
def zzzz9Upstream : Upstream :=
  ⟨.payload (some ⟨some "Unknown", none, none⟩), .payload none,
   .payload (some ⟨none⟩), .payload none⟩

/-- A session state holding a previously loaded snapshot pair and a
non-empty chat log. -/
def priorPairState : SessionState :=
  ⟨[⟨"user", "What changed today"⟩, ⟨"ai", "Both rallied"⟩],
   some sdFull, some sdFull, "AAPL", "MSFT"⟩

/-- The snapshot `get_stock_data` builds for a symbol whose profile lacks
the market capitalization: its `marketCap` carries the sentinel. -/
def sdNoMc : StockData :=
  { info :=
      { symbol := .str "XYZ"
        shortName := .str "Startup"
        marketCap := sentinel
        currentPrice := .num 10
        trailingPE := .num 5
        forwardPE := .num 6
        fiftyTwoWeekHigh := .num 12
        fiftyTwoWeekLow := .num 8
        dividendYield := .num 0
        sector := .str "Tech"
        beta := .num 1 }
    candles := none }

/-- A chat-tab session state with an empty conversation log. -/
def chatStateA : SessionState :=
  ⟨[], some sdFull, some sdFull, "NVDA", "MSFT"⟩

/-- The same session state with two earlier conversation turns. -/
def chatStateB : SessionState :=
  ⟨[⟨"user", "earlier question"⟩, ⟨"ai", "earlier answer"⟩],
   some sdFull, some sdFull, "NVDA", "MSFT"⟩

/-- A candle payload with status ok and 252 daily bars. -/
def cd252 : CandlesPayload :=
  { s := "ok"
    o := List.replicate 252 1
    h := List.replicate 252 2
    l := List.replicate 252 (1 / 2)
    c := List.replicate 252 (3 / 2)
    v := List.replicate 252 1000
    t := (List.range 252).map (fun n => (n : Int)) }

/-- A snapshot carrying the 252-bar candle payload. -/
def sd252 : StockData := { info := sdFull.info, candles := some cd252 }

/-- A concrete two-item news response whose timestamps lie inside the
seven-day window ending at timestamp 604800. -/
def newsEx : List NewsItem :=
  [⟨"Q2 results", "Wire", 600000, "Beat expectations"⟩,
   ⟨"New chip line", "Daily", 500000, "Announced at the keynote"⟩]

/-! Helper lemmas shared by the claim theorems. -/

theorem numOr_safe (o : Option Rat) : numOrSentinel (numOr o) := by
  cases o with
  | none => exact Or.inr rfl
  | some q => exact Or.inl ⟨q, rfl⟩

theorem marketCapVal_safe (o : Option Rat) : numOrSentinel (marketCapVal o) := by
  cases o with
  | none => exact Or.inr rfl
  | some mc =>
    by_cases hmc : mc ≠ 0
    · exact Or.inl ⟨mc * 1000000, by simp [marketCapVal, hmc]⟩
    · exact Or.inr (by simp [marketCapVal, hmc])

theorem dividendYieldVal_num (o : Option Rat) :
    ∃ qd, dividendYieldVal o = FieldVal.num qd := by
  cases o with
  | none => exact ⟨0, rfl⟩
  | some d =>
    by_cases hd : d ≠ 0
    · exact ⟨d / 100, by simp [dividendYieldVal, hd]⟩
    · exact ⟨0, by simp [dividendYieldVal, hd]⟩

theorem get_stock_data_shape (sym : String) (p : ProfileFields)
    (q : QuoteFields) (f : FinancialsFields) (cand : Option CandlesPayload)
    (sd : StockData)
    (h : get_stock_data sym (.payload (some p)) (.payload (some q))
          (.payload (some f)) (.payload cand) = some sd) :
    sd.info.symbol = FieldVal.str sym
  ∧ sd.info.shortName = strOr p.name
  ∧ sd.info.marketCap = marketCapVal p.marketCapitalization
  ∧ sd.info.currentPrice = numOr q.c
  ∧ sd.info.trailingPE = numOr (f.metric.getD emptyMetric).peBasicExclExtraTTM
  ∧ sd.info.forwardPE = numOr (f.metric.getD emptyMetric).peNormalizedAnnual
  ∧ sd.info.fiftyTwoWeekHigh = numOr q.h
  ∧ sd.info.fiftyTwoWeekLow = numOr q.l
  ∧ sd.info.dividendYield
      = dividendYieldVal (f.metric.getD emptyMetric).dividendYieldIndicatedAnnual
  ∧ sd.info.sector = strOr p.finnhubIndustry
  ∧ sd.info.beta = numOr (f.metric.getD emptyMetric).beta
  ∧ sd.candles = cand := by
  simp only [get_stock_data, Option.some.injEq] at h
  subst h
  exact ⟨rfl, rfl, rfl, rfl, rfl, rfl, rfl, rfl, rfl, rfl, rfl, rfl⟩

theorem renderMetricVal_safe (v : FieldVal) (f : Fmt) (h : numOrSentinel v) :
    ∃ s, renderMetricVal v f = .ok s ∧ (v = sentinel → s = "N/A") := by
  rcases h with ⟨q, rfl⟩ | rfl
  · by_cases hq : (FieldVal.num q).truthy = true ∧ FieldVal.num q ≠ sentinel
    · exact ⟨applyFmt f q, by simp [renderMetricVal, hq],
        fun hc => absurd hc (by simp [sentinel])⟩
    · exact ⟨"N/A", by simp [renderMetricVal, hq], fun _ => rfl⟩
  · exact ⟨"N/A", rfl, fun _ => rfl⟩

theorem renderPairs_safe (l : List (FieldVal × Fmt))
    (h : ∀ pr ∈ l, numOrSentinel pr.1) : ∃ ss, renderPairs l = .ok ss := by
  induction l with
  | nil => exact ⟨[], rfl⟩
  | cons a t ih =>
    obtain ⟨s, hs, -⟩ := renderMetricVal_safe a.1 a.2 (h a (by simp))
    obtain ⟨ss, hss⟩ := ih (fun pr hpr => h pr (by simp [hpr]))
    exact ⟨s :: ss, by simp [renderPairs, hs, hss]⟩

theorem fetched_table_safe (sym : String) (p : ProfileFields)
    (q : QuoteFields) (f : FinancialsFields) (cand : Option CandlesPayload)
    (sd : StockData)
    (h : get_stock_data sym (.payload (some p)) (.payload (some q))
          (.payload (some f)) (.payload cand) = some sd) :
    ∀ pr ∈ infoMetrics sd.info, numOrSentinel pr.1 := by
  obtain ⟨-, -, hmc, hcp, hpe, hfpe, hhi, hlo, hdy, -, hbeta, -⟩ :=
    get_stock_data_shape sym p q f cand sd h
  intro pr hpr
  simp only [infoMetrics, List.mem_cons, List.not_mem_nil, or_false] at hpr
  rcases hpr with rfl | rfl | rfl | rfl | rfl | rfl | rfl | rfl
  · rw [hcp]; exact numOr_safe _
  · rw [hmc]; exact marketCapVal_safe _
  · rw [hpe]; exact numOr_safe _
  · rw [hfpe]; exact numOr_safe _
  · rw [hbeta]; exact numOr_safe _
  · obtain ⟨qd, hq⟩ := dividendYieldVal_num
      (f.metric.getD emptyMetric).dividendYieldIndicatedAnnual
    rw [hdy, hq]; exact Or.inl ⟨qd, rfl⟩
  · rw [hhi]; exact numOr_safe _
  · rw [hlo]; exact numOr_safe _

/-! The claim theorems. -/

/-- C1 (counterexample): with a prior snapshot pair loaded and the chat
log non-empty, re-running the Analyze handler with first symbol ZZZZ9
(whose quote payload is empty, so its fetch fails) and the second symbol
MSFT unchanged does NOT leave the prior state untouched: the stored
first snapshot becomes None (the prior snapshot is overwritten, so the
prior pair does not remain) and the chat history is cleared, refuting
the claim that a failed fetch leaves the previously stored snapshot pair
and prior state untouched. -/
theorem c1_counterexample :
    fetchSnapshot "ZZZZ9" zzzz9Upstream = none
  ∧ priorPairState.stock1_data = some sdFull
  ∧ priorPairState.chat_history ≠ []
  ∧ (analyzeClick priorPairState "ZZZZ9" "MSFT" zzzz9Upstream
      goodUpstream).stock1_data = none
  ∧ (analyzeClick priorPairState "ZZZZ9" "MSFT" zzzz9Upstream
      goodUpstream).stock1_data ≠ priorPairState.stock1_data
  ∧ (analyzeClick priorPairState "ZZZZ9" "MSFT" zzzz9Upstream
      goodUpstream).chat_history = [] :=
  ⟨rfl, rfl, by decide, rfl, by decide, rfl⟩

/-- C1 (amended): when a snapshot fetch fails during the Analyze action
(both symbol inputs non-empty), the handler stores the failure result
None in place of that symbol's snapshot — overwriting any prior snapshot
rather than leaving it untouched — updates both symbols, clears the chat
history, and stores the other symbol's fetch result as-is. -/
theorem c1_amended (st : SessionState) (sym1 sym2 : String)
    (u1 u2 : Upstream) (h1 : sym1 ≠ "") (h2 : sym2 ≠ "")
    (hf : fetchSnapshot sym1 u1 = none) :
    (analyzeClick st sym1 sym2 u1 u2).stock1_data = none
  ∧ (analyzeClick st sym1 sym2 u1 u2).chat_history = []
  ∧ (analyzeClick st sym1 sym2 u1 u2).stock1_symbol = sym1
  ∧ (analyzeClick st sym1 sym2 u1 u2).stock2_symbol = sym2
  ∧ (analyzeClick st sym1 sym2 u1 u2).stock2_data = fetchSnapshot sym2 u2 := by
  simp [analyzeClick, h1, h2, hf]

/-- C1 (witness): the amended statement applied to the concrete ZZZZ9
scenario over a loaded prior pair. -/
theorem c1_amended_witness :
    ("ZZZZ9" : String) ≠ "" ∧ ("MSFT" : String) ≠ ""
  ∧ fetchSnapshot "ZZZZ9" zzzz9Upstream = none
  ∧ (analyzeClick priorPairState "ZZZZ9" "MSFT" zzzz9Upstream
      goodUpstream).stock1_data = none
  ∧ (analyzeClick priorPairState "ZZZZ9" "MSFT" zzzz9Upstream
      goodUpstream).chat_history = [] := by
  have h := c1_amended priorPairState "ZZZZ9" "MSFT" zzzz9Upstream
    goodUpstream (by decide) (by decide) rfl
  exact ⟨by decide, by decide, rfl, h.1, h.2.1⟩

/-- C3 (counterexample): with non-empty profile and quote payloads, an
empty extended-financials payload — and likewise a failed financials
call — makes `get_stock_data` return None: the whole snapshot fetch
fails, refuting the claim that a financials failure only triggers
field-level sentinel substitution. -/
theorem c3_counterexample :
    get_stock_data "AAPL"
      (.payload (some ⟨some "Apple", some 3500000, some "Technology"⟩))
      (.payload (some ⟨some 230, some 237, some 169⟩))
      (.payload none) (.payload none) = none
  ∧ get_stock_data "AAPL"
      (.payload (some ⟨some "Apple", some 3500000, some "Technology"⟩))
      (.payload (some ⟨some 230, some 237, some 169⟩))
      .failed (.payload none) = none :=
  ⟨rfl, rfl⟩

/-- C3 (amended): sentinel substitution applies only to metric keys (or
the whole metric sub-object) missing inside a NON-empty financials
payload — then the snapshot is still returned, with the sentinel for
each financials-derived field and 0 for the dividend yield; an empty
financials payload, like a failed financials call, fails the whole
snapshot fetch exactly as quote or profile absence does. -/
theorem c3_amended (sym : String) (p : ProfileFields) (q : QuoteFields)
    (cand : Option CandlesPayload) :
    (∃ sd, get_stock_data sym (.payload (some p)) (.payload (some q))
        (.payload (some ⟨none⟩)) (.payload cand) = some sd
      ∧ sd.info.trailingPE = sentinel ∧ sd.info.forwardPE = sentinel
      ∧ sd.info.beta = sentinel ∧ sd.info.dividendYield = FieldVal.num 0)
  ∧ get_stock_data sym (.payload (some p)) (.payload (some q))
      (.payload none) (.payload cand) = none
  ∧ get_stock_data sym (.payload (some p)) (.payload (some q))
      .failed (.payload cand) = none := by
  exact ⟨⟨_, rfl, rfl, rfl, rfl, rfl⟩, rfl, rfl⟩

/-- C4: an empty or absent quote or profile payload makes the snapshot
fetch return the failure result None (never a snapshot), and a full
upstream payload yields a snapshot in which every field is present with
its mapped value. -/
theorem c4_fetch (sym : String)
    (prof : UpstreamResult ProfileFields) (quo : UpstreamResult QuoteFields)
    (fins : UpstreamResult FinancialsFields)
    (cand : UpstreamResult CandlesPayload)
    (nm ind : String) (mc cq ch cl pe1 pe2 dy bet : Rat)
    (cd : Option CandlesPayload) (hmc : mc ≠ 0) (hdy : dy ≠ 0) :
    get_stock_data sym (.payload none) quo fins cand = none
  ∧ get_stock_data sym prof (.payload none) fins cand = none
  ∧ get_stock_data sym
      (.payload (some ⟨some nm, some mc, some ind⟩))
      (.payload (some ⟨some cq, some ch, some cl⟩))
      (.payload (some ⟨some ⟨some pe1, some pe2, some dy, some bet⟩⟩))
      (.payload cd)
    = some ⟨⟨.str sym, .str nm, .num (mc * 1000000), .num cq, .num pe1,
            .num pe2, .num ch, .num cl, .num (dy / 100), .str ind,
            .num bet⟩, cd⟩ := by
  refine ⟨rfl, ?_, ?_⟩
  · cases prof with
    | failed => rfl
    | payload po => cases po <;> rfl
  · simp [get_stock_data, marketCapVal, dividendYieldVal, numOr, strOr,
      hmc, hdy, emptyMetric]

/-- C4 (witness): the fetch outcome at concrete payloads — empty profile
fails; the full NVDA payload yields the fully populated snapshot. -/
theorem c4_fetch_witness :
    (3000000 : Rat) ≠ 0 ∧ (4 : Rat) ≠ 0
  ∧ get_stock_data "NVDA"
      ((UpstreamResult.payload none) : UpstreamResult ProfileFields)
      .failed .failed .failed = none
  ∧ get_stock_data "NVDA"
      (.payload (some ⟨some "NVIDIA", some 3000000, some "Technology"⟩))
      (.payload (some ⟨some 180, some 200, some 90⟩))
      (.payload (some ⟨some ⟨some 50, some 40, some 4, some 2⟩⟩))
      (.payload none)
    = some ⟨⟨.str "NVDA", .str "NVIDIA", .num (3000000 * 1000000),
            .num 180, .num 50, .num 40, .num 200, .num 90,
            .num (4 / 100), .str "Technology", .num 2⟩, none⟩ := by
  have h := c4_fetch "NVDA" (.payload none) .failed .failed .failed
    "NVIDIA" "Technology" 3000000 180 200 90 50 40 4 2 none
    (by decide) (by decide)
  exact ⟨by decide, by decide, h.1, h.2.2⟩

/-- C6: whenever the Analyze handler runs with both symbol inputs
non-empty (a new snapshot pair is loaded), the chat history afterwards
has length 0: loading a new pair always clears any existing chat
history. -/
theorem c6_chat_cleared (st : SessionState) (sym1 sym2 : String)
    (u1 u2 : Upstream) (h1 : sym1 ≠ "") (h2 : sym2 ≠ "") :
    (analyzeClick st sym1 sym2 u1 u2).chat_history = [] := by
  simp [analyzeClick, h1, h2]

/-- C6 (witness): re-running the analysis over a state with a non-empty
chat log clears the log. -/
theorem c6_chat_cleared_witness :
    priorPairState.chat_history ≠ []
  ∧ (analyzeClick priorPairState "NVDA" "MSFT" goodUpstream
      goodUpstream).chat_history = [] :=
  ⟨by decide, c6_chat_cleared priorPairState "NVDA" "MSFT" goodUpstream
    goodUpstream (by decide) (by decide)⟩

/-- C2 (counterexample): a reachable snapshot whose market cap carries
the sentinel (profile without market capitalization) makes the
comparison-brief construction raise a formatting ValueError on the
thousands-separator spec — caught and surfaced as an analysis-error
string — instead of rendering the literal sentinel, refuting the claim
that rendering the brief never raises a formatting exception and always
produces the sentinel literal for a missing field. -/
theorem c2_counterexample :
    get_stock_data "XYZ"
      (.payload (some ⟨some "Startup", none, some "Tech"⟩))
      (.payload (some ⟨some 10, some 12, some 8⟩))
      (.payload (some ⟨some ⟨some 5, some 6, none, some 1⟩⟩))
      (.payload none) = some sdNoMc
  ∧ sdNoMc.info.marketCap = sentinel
  ∧ analysisPrompt sdNoMc sdNoMc "XYZ" "XYZ"
      = .error "Cannot specify , with s"
  ∧ get_ai_analysis sdNoMc sdNoMc "XYZ" "XYZ" (fun s => .ok (some s))
      = "Analysis error: Cannot specify , with s" :=
  ⟨rfl, rfl, rfl, by decide⟩

/-- C2 (amended): for snapshots produced by a successful fetch, the
fundamentals metrics table never raises a formatting exception and
renders every sentinel-valued metric as the literal sentinel string; but
in the comparison brief the sentinel does NOT bypass the numeric rule
for the market cap: a sentinel market cap makes the thousands-separator
spec raise a ValueError, which `get_ai_analysis` catches and converts
into an analysis-error string in place of the brief. -/
theorem c2_amended (sym1 sym2 : String) (p1 p2 : ProfileFields)
    (q1 q2 : QuoteFields) (f1 f2 : FinancialsFields)
    (cd1 cd2 : Option CandlesPayload) (sd1 sd2 : StockData)
    (gen : String → Except String (Option String))
    (h1 : get_stock_data sym1 (.payload (some p1)) (.payload (some q1))
           (.payload (some f1)) (.payload cd1) = some sd1)
    (h2 : get_stock_data sym2 (.payload (some p2)) (.payload (some q2))
           (.payload (some f2)) (.payload cd2) = some sd2) :
    (∃ ss, renderFundamentals sd1.info = .ok ss)
  ∧ (∃ ss, renderFundamentals sd2.info = .ok ss)
  ∧ (∀ fm, renderMetricVal sentinel fm = .ok "N/A")
  ∧ (sd1.info.marketCap = sentinel →
      analysisPrompt sd1 sd2 sym1 sym2 = .error "Cannot specify , with s"
      ∧ get_ai_analysis sd1 sd2 sym1 sym2 gen
          = "Analysis error: Cannot specify , with s") := by
  refine ⟨renderPairs_safe _ (fetched_table_safe sym1 p1 q1 f1 cd1 sd1 h1),
    renderPairs_safe _ (fetched_table_safe sym2 p2 q2 f2 cd2 sd2 h2),
    fun fm => rfl, fun hmcs => ?_⟩
  have hp : analysisPrompt sd1 sd2 sym1 sym2
      = .error "Cannot specify , with s" := by
    simp [analysisPrompt, stockBlock, hmcs, sentinel, pyFormatComma]
  exact ⟨hp, by simp [get_ai_analysis, hp]⟩

/-- C2 (witness): the amended statement at the concrete sentinel-market-
cap snapshot. -/
theorem c2_amended_witness :
    (∃ ss, renderFundamentals sdNoMc.info = Except.ok ss)
  ∧ analysisPrompt sdNoMc sdNoMc "XYZ" "XYZ"
      = .error "Cannot specify , with s"
  ∧ get_ai_analysis sdNoMc sdNoMc "XYZ" "XYZ" (fun s => .ok (some s))
      = "Analysis error: Cannot specify , with s" := by
  have h := c2_amended "XYZ" "XYZ"
    ⟨some "Startup", none, some "Tech"⟩ ⟨some "Startup", none, some "Tech"⟩
    ⟨some 10, some 12, some 8⟩ ⟨some 10, some 12, some 8⟩
    ⟨some ⟨some 5, some 6, none, some 1⟩⟩ ⟨some ⟨some 5, some 6, none, some 1⟩⟩
    none none sdNoMc sdNoMc (fun s => .ok (some s)) rfl rfl
  exact ⟨h.1, (h.2.2.2 rfl).1, (h.2.2.2 rfl).2⟩

/-- C5 (counterexample): two session states holding the same snapshot
pair but different conversation logs (one empty, one with two prior
turns) produce the identical generation prompt and identical assistant
text, refuting the claim that the full prior conversation log is part of
the generation context. -/
theorem c5_counterexample :
    chatStateA.chat_history ≠ chatStateB.chat_history
  ∧ chatFullPrompt chatStateA "Compare growth potential"
      = chatFullPrompt chatStateB "Compare growth potential"
  ∧ generate_chat_response chatStateA "Compare growth potential"
      (fun s => .ok (some s))
      = generate_chat_response chatStateB "Compare growth potential"
        (fun s => .ok (some s)) :=
  ⟨by decide, rfl, rfl⟩

/-- C5 (amended): each chat submission appends the user turn, invokes
the generator with a prompt built only from the two stored snapshots,
their symbols and the question — the prior conversation log is NOT part
of the generation context — then appends the assistant turn; the
existing turns are preserved as a prefix, so turns are strictly
append-ordered and no turn is edited or removed by this handler. -/
theorem c5_amended (st : SessionState) (prompt : String)
    (gen : String → Except String (Option String)) (h : prompt ≠ "") :
    (chatSubmit st prompt gen).chat_history
      = st.chat_history
        ++ [⟨"user", prompt⟩,
            ⟨"ai", generate_chat_response
              { st with chat_history :=
                  st.chat_history ++ [(⟨"user", prompt⟩ : ChatMsg)] }
              prompt gen⟩]
  ∧ ∀ hist1 hist2,
      generate_chat_response { st with chat_history := hist1 } prompt gen
        = generate_chat_response { st with chat_history := hist2 }
            prompt gen := by
  constructor
  · simp [chatSubmit, h]
  · intro hist1 hist2
    rfl

/-- C5 (witness): the amended statement applied to the concrete state
with two prior turns. -/
theorem c5_amended_witness :
    ("Compare growth potential" : String) ≠ ""
  ∧ (chatSubmit chatStateB "Compare growth potential"
      (fun s => .ok (some s))).chat_history
      = chatStateB.chat_history
        ++ [⟨"user", "Compare growth potential"⟩,
            ⟨"ai", generate_chat_response
              { chatStateB with chat_history :=
                  chatStateB.chat_history
                    ++ [(⟨"user", "Compare growth potential"⟩ : ChatMsg)] }
              "Compare growth potential" (fun s => .ok (some s))⟩] :=
  ⟨by decide, (c5_amended chatStateB "Compare growth potential"
    (fun s => .ok (some s)) (by decide)).1⟩

/-- C7: the chart builder returns the no-data result None exactly on an
empty history sequence, and on a non-empty history of n bars returns a
series of exactly n candlestick points, one per bar, in input order. -/
theorem c7_chart (sd : StockData) :
    (history sd = [] → create_price_chart sd = none)
  ∧ ∀ bars, history sd = bars → bars ≠ [] →
      create_price_chart sd = some (bars.map barPoint)
      ∧ (bars.map barPoint).length = bars.length := by
  constructor
  · intro h
    simp [create_price_chart, h]
  · intro bars hb hne
    exact ⟨by simp [create_price_chart, hb, hne], by simp⟩

set_option maxRecDepth 10000 in
/-- C7 (witness): no chart for a snapshot without candles; a 252-bar
year-long history yields a 252-point series in input order. -/
theorem c7_chart_witness :
    create_price_chart sdFull = none
  ∧ create_price_chart sd252 = some ((history sd252).map barPoint)
  ∧ (history sd252).length = 252 := by
  refine ⟨(c7_chart sdFull).1 rfl,
    ((c7_chart sd252).2 (history sd252) rfl ?_).1, by decide⟩
  decide

/-- C8: the news fetch returns the first five items of the upstream
response in upstream order (hence at most limit = 5 items, all drawn
from the requested trailing seven-day window whenever the upstream
honours the requested range), and returns the empty sequence — not an
error — when the upstream has no items or the call fails. -/
theorem c8_news (news : List NewsItem) (now : Int)
    (hw : ∀ it ∈ news, (newsWindow now).1 ≤ it.datetime
            ∧ it.datetime ≤ (newsWindow now).2) :
    get_stock_news (.payload (some news)) = news.take 5
  ∧ (get_stock_news (.payload (some news))).length ≤ 5
  ∧ (∀ it ∈ get_stock_news (.payload (some news)),
        (newsWindow now).1 ≤ it.datetime ∧ it.datetime ≤ (newsWindow now).2)
  ∧ (news = [] → get_stock_news (.payload (some news)) = [])
  ∧ get_stock_news (.payload none) = []
  ∧ get_stock_news .failed = [] := by
  refine ⟨rfl, ?_, ?_, ?_, rfl, rfl⟩
  · simp [get_stock_news]
  · intro it hit
    exact hw it (List.take_subset 5 news hit)
  · intro h
    subst h
    rfl

/-- C8 (witness): the fetch at a concrete two-item upstream response
within the window. -/
theorem c8_news_witness :
    get_stock_news (.payload (some newsEx)) = newsEx.take 5
  ∧ (get_stock_news (.payload (some newsEx))).length ≤ 5
  ∧ get_stock_news ((UpstreamResult.payload none) :
      UpstreamResult (List NewsItem)) = []
  ∧ get_stock_news ((UpstreamResult.failed) :
      UpstreamResult (List NewsItem)) = [] := by
  have h := c8_news newsEx 604800 (by decide)
  exact ⟨h.1, h.2.1, h.2.2.2.2.1, h.2.2.2.2.2⟩

/-- C9: in every snapshot returned by a successful fetch, the
dividendYield field is a number — the upstream percentage divided by 100
when present and non-zero, exactly 0 when absent or zero — never the
sentinel, so multiplying it by 100 and applying the two-decimal format
in the narrative prompt never raises. -/
theorem c9_dividend (sym : String) (p : ProfileFields) (q : QuoteFields)
    (f : FinancialsFields) (cand : Option CandlesPayload) (sd : StockData)
    (h : get_stock_data sym (.payload (some p)) (.payload (some q))
          (.payload (some f)) (.payload cand) = some sd) :
    (∃ qd, sd.info.dividendYield = FieldVal.num qd)
  ∧ sd.info.dividendYield ≠ sentinel
  ∧ (∀ d, (f.metric.getD emptyMetric).dividendYieldIndicatedAnnual = some d →
      d ≠ 0 → sd.info.dividendYield = FieldVal.num (d / 100))
  ∧ ((f.metric.getD emptyMetric).dividendYieldIndicatedAnnual = some 0 ∨
      (f.metric.getD emptyMetric).dividendYieldIndicatedAnnual = none →
        sd.info.dividendYield = FieldVal.num 0)
  ∧ (∃ s, pyFormatF2 (pyMul100 sd.info.dividendYield) = Except.ok s) := by
  obtain ⟨-, -, -, -, -, -, -, -, hdy, -, -, -⟩ :=
    get_stock_data_shape sym p q f cand sd h
  obtain ⟨qd, hq⟩ := dividendYieldVal_num
    (f.metric.getD emptyMetric).dividendYieldIndicatedAnnual
  refine ⟨⟨qd, by rw [hdy, hq]⟩, by rw [hdy, hq]; simp [sentinel], ?_, ?_, ?_⟩
  · intro d hd hd0
    rw [hdy, hd]
    simp [dividendYieldVal, hd0]
  · rintro (hz | hz) <;> rw [hdy, hz] <;> simp [dividendYieldVal]
  · exact ⟨fmtF2 (qd * 100), by rw [hdy, hq]; rfl⟩

/-- C9 (witness): the dividend yield of the concrete full-payload NVDA
snapshot is a number and formats without fault. -/
theorem c9_dividend_witness :
    (∃ qd, sdFull.info.dividendYield = FieldVal.num qd)
  ∧ sdFull.info.dividendYield ≠ sentinel
  ∧ (∃ s, pyFormatF2 (pyMul100 sdFull.info.dividendYield) = Except.ok s) := by
  have h := c9_dividend "NVDA" fullProf fullQuote fullFin none sdFull rfl
  exact ⟨h.1, h.2.1, h.2.2.2.2⟩

/-- C10: the fundamentals-table guard treats every falsy value the same
as the sentinel: a metric whose fetched value equals 0 (such as a
dividend yield of 0) renders as the literal sentinel string under every
format spec, exactly as the sentinel itself (and the falsy empty string)
does, rather than as a formatted zero. -/
theorem c10_falsy_zero (f : Fmt) :
    renderMetricVal (FieldVal.num 0) f = .ok "N/A"
  ∧ renderMetricVal sentinel f = .ok "N/A"
  ∧ renderMetricVal (FieldVal.str "") f = .ok "N/A" :=
  ⟨rfl, rfl, rfl⟩

end FinanceApp
